import Mathlib

/-!
Verification development for the ScribeAI capture-and-delivery pipeline.

The definitions below are shallow embeddings of the TypeScript sources:
* `recorder-machine.ts` — the xstate recorder machine (states, context, actions);
* `socket-token.ts` — HMAC-signed socket tokens (sign / verify);
* the Socket.io relay — `join-session`, `audio-chunk` (rate limit, size gate,
  token gate, persistence, suspicious-transcript filter), `complete-session`;
* `use-recorder.ts` — the chunk delivery queue (`flushQueue`, `discardPending`)
  and the best-effort session finalizer (`completeSession`).

Effectful TypeScript is modelled as explicit state passing; `Date.now()` and
network/DB outcomes are passed in as parameters; exceptions become `Except`.
-/

namespace ScribeAI

/-! ## Recorder state machine (`recorder-machine.ts`) -/

/-- Type `RecorderSource` from `recorder-machine.ts`. -/
inductive RecorderSource
  | mic
  | tab
deriving DecidableEq, Repr

/-- Structure `RecorderContext` from `recorder-machine.ts`: source, chunk counters and the
stored error message (`null` becomes `none`). -/
structure RecorderContext where
  source : RecorderSource
  queuedChunks : Nat
  uploadedChunks : Nat
  error : Option String
deriving DecidableEq, Repr

/-- Type `RecorderEvent` from `recorder-machine.ts`. -/
inductive RecorderEvent
  | START (source : RecorderSource)
  | PAUSE
  | RESUME
  | STOP
  | RESET
  | CHUNK_QUEUED
  | CHUNK_UPLOADED
  | ERROR (message : String)
deriving DecidableEq, Repr

/-- Constant `initialContext` from `recorder-machine.ts`. -/
def initialContext : RecorderContext :=
  { source := .mic, queuedChunks := 0, uploadedChunks := 0, error := none }

/-- The `setSource` action: records the chosen source and resets counters and
error (only ever fired for `START`, whose source it reads). -/
def setSource (ctx : RecorderContext) (src : RecorderSource) : RecorderContext :=
  { ctx with source := src, queuedChunks := 0, uploadedChunks := 0, error := none }

/-- The `incrementQueued` action. -/
def incrementQueued (ctx : RecorderContext) : RecorderContext :=
  { ctx with queuedChunks := ctx.queuedChunks + 1 }

/-- The `chunkUploaded` action: `queuedChunks := max(queuedChunks - 1, 0)`
(saturating subtraction on `Nat`) and `uploadedChunks + 1`. -/
def chunkUploaded (ctx : RecorderContext) : RecorderContext :=
  { ctx with queuedChunks := ctx.queuedChunks - 1,
             uploadedChunks := ctx.uploadedChunks + 1 }

/-- The `captureError` action: stores the `ERROR` message. -/
def captureError (ctx : RecorderContext) (message : String) : RecorderContext :=
  { ctx with error := some message }

/-- The four machine states of `recorderMachine`. -/
inductive MachState
  | idle
  | recording
  | paused
  | error
deriving DecidableEq, Repr

/-- A machine configuration: state node plus context. -/
abbrev Mach := MachState × RecorderContext

/-- One step of `recorderMachine`. Per xstate semantics an event with no
transition defined in the current state leaves state and context unchanged.
The per-state `on` tables are transcribed from `createMachine` in
`recorder-machine.ts`. -/
def machineStep (m : Mach) (e : RecorderEvent) : Mach :=
  match m.1, e with
  | .idle, .START src => (.recording, setSource m.2 src)
  | .idle, .RESET => (.idle, initialContext)
  | .recording, .PAUSE => (.paused, m.2)
  | .recording, .STOP => (.idle, m.2)
  | .recording, .CHUNK_QUEUED => (.recording, incrementQueued m.2)
  | .recording, .CHUNK_UPLOADED => (.recording, chunkUploaded m.2)
  | .recording, .ERROR msg => (.error, captureError m.2 msg)
  | .paused, .RESUME => (.recording, m.2)
  | .paused, .STOP => (.idle, m.2)
  | .paused, .ERROR msg => (.error, captureError m.2 msg)
  | .error, .RESET => (.idle, initialContext)
  | _, _ => m

/-! ## Socket tokens (`socket-token.ts`)

The token body is the JSON payload `{sessionId, userId, exp}`; the signature is
an HMAC-SHA256 over the encoded body. The hash itself is cryptographic code
outside the embedding, so `sign`/`verify` are parameterized by the keyed MAC
function `hmac` (the source closes over a fixed secret the same way); the
base64url encode/decode pair is an inverse pair, so the body is carried
structurally. `timingSafeEqual` on equal-length digests is equality. -/

/-- Constant `SOCKET_TOKEN_TTL_MS = 1000 * 60 * 60` from `socket-token.ts`. -/
def SOCKET_TOKEN_TTL_MS : Nat := 1000 * 60 * 60

/-- Structure `SocketTokenPayload` from `socket-token.ts`. -/
structure SocketTokenPayload where
  sessionId : String
  userId : String
  exp : Nat
deriving DecidableEq, Repr

/-- A parsed two-segment token: body payload plus signature segment. -/
structure SocketToken where
  body : SocketTokenPayload
  sig : String
deriving DecidableEq, Repr

/-- Function `signSocketToken` from `socket-token.ts`: payload expires
`SOCKET_TOKEN_TTL_MS` after `now`, signature is the MAC of the body. -/
def signSocketToken (hmac : SocketTokenPayload → String)
    (sessionId userId : String) (now : Nat) : SocketToken :=
  let payload : SocketTokenPayload :=
    { sessionId := sessionId, userId := userId, exp := now + SOCKET_TOKEN_TTL_MS }
  { body := payload, sig := hmac payload }

/-- Function `verifySocketToken` from `socket-token.ts`: recompute the MAC and compare
(constant-time in the source), then reject when `payload.exp < Date.now()`;
thrown `Error`s become `Except.error` of the message. -/
def verifySocketToken (hmac : SocketTokenPayload → String)
    (t : SocketToken) (now : Nat) : Except String SocketTokenPayload :=
  let expected := hmac t.body
  if t.sig ≠ expected then
    .error "Invalid token signature"
  else if t.body.exp < now then
    .error "Token expired"
  else
    .ok t.body

/-! ## Relay: `join-session` handler -/

/-- Result of the relay `join-session` handler: whether the socket was joined
to the session room, and the `session-error` message emitted on failure. -/
structure JoinOutcome where
  joined : Bool
  errorMsg : Option String
deriving DecidableEq, Repr

/-- The relay `join-session` handler. A missing `sessionId`/`token`, a token
verification failure, a token whose embedded `sessionId` differs from the
requested one, or a DB miss each emit `session-error` and skip the room join;
otherwise the socket joins the session room. The Prisma lookup (scoped to the
token user) is the `recordingExists` oracle. -/
def joinSession (hmac : SocketTokenPayload → String) (sessionId : String)
    (token : Option SocketToken) (now : Nat) (recordingExists : Bool) : JoinOutcome :=
  match token with
  | none => { joined := false, errorMsg := some "Missing sessionId or token" }
  | some t =>
    if sessionId = "" then
      { joined := false, errorMsg := some "Missing sessionId or token" }
    else
      match verifySocketToken hmac t now with
      | .error e => { joined := false, errorMsg := some e }
      | .ok payload =>
        if payload.sessionId ≠ sessionId then
          { joined := false, errorMsg := some "Token mismatch" }
        else if ¬recordingExists then
          { joined := false, errorMsg := some "Recording not found" }
        else
          { joined := true, errorMsg := none }

/-! ## Relay: rate limit, size gate and the `audio-chunk` handler -/

/-- Constant `RATE_WINDOW_MS` from the relay. -/
def RATE_WINDOW_MS : Nat := 10000

/-- Constant `MAX_CHUNKS_PER_WINDOW` from the relay. -/
def MAX_CHUNKS_PER_WINDOW : Nat := 40

/-- One entry of the relay `rateState` map (per socket id). -/
structure RateEntry where
  count : Nat
  windowStart : Nat
deriving DecidableEq, Repr

/-- Function `checkRateLimit` from the relay, with the per-socket map entry passed in
and the updated entry returned: a fresh or stale window restarts at count 1; a
full window rejects without mutating; otherwise the count is incremented. -/
def checkRateLimit (st : Option RateEntry) (now : Nat) : Bool × RateEntry :=
  match st with
  | none => (true, { count := 1, windowStart := now })
  | some e =>
    if RATE_WINDOW_MS < now - e.windowStart then
      (true, { count := 1, windowStart := now })
    else if MAX_CHUNKS_PER_WINDOW ≤ e.count then
      (false, e)
    else
      (true, { count := e.count + 1, windowStart := e.windowStart })

/-- Node `Buffer.byteLength(chunk, "base64")` as the runtime computes it: drop up to two
trailing padding characters, then `(chars * 3) >>> 2`. -/
def base64ByteLength (s : String) : Nat :=
  let l := s.data
  let n := l.length
  let n1 := if 0 < n ∧ l.getD (n - 1) ' ' = '=' then n - 1 else n
  let n2 := if 1 < n1 ∧ l.getD (n1 - 1) ' ' = '=' then n1 - 1 else n1
  n2 * 3 / 4

/-- The decoded-size ceiling `2 * 1024 * 1024` from the relay size gate. -/
def MAX_CHUNK_BYTES : Nat := 2 * 1024 * 1024

/-- The `audio-chunk` event payload (fields the handler reads). The token is
parsed structurally; `none` models an absent/falsy `token` field, and an empty
string models absent/falsy `sessionId`/`chunk`. -/
structure ChunkMsg where
  sessionId : String
  chunk : String
  index : Nat
  durationMs : Nat
  mimeType : Option String
  token : Option SocketToken
deriving DecidableEq, Repr

/-- Check `!sessionId || !chunk || !token` from the `audio-chunk` handler. -/
def payloadMissing (msg : ChunkMsg) : Bool :=
  msg.sessionId = "" || msg.chunk = "" || msg.token.isNone

/-- Whitespace removed by JavaScript `String.prototype.trim` (the ASCII
subset that can occur in transcripts). -/
def isJsWhitespace (c : Char) : Bool :=
  c = ' ' || c = '\t' || c = '\n' || c = '\r'

/-- JavaScript `text.trim()`: strip leading and trailing whitespace. -/
def jsTrim (s : String) : String :=
  String.mk (((s.data.dropWhile isJsWhitespace).reverse.dropWhile isJsWhitespace).reverse)

/-- ASCII lowercasing of one character, as `String.prototype.toLowerCase`
acts on the phrases below. -/
def charToLower (c : Char) : Char :=
  if 65 ≤ c.toNat ∧ c.toNat ≤ 90 then Char.ofNat (c.toNat + 32) else c

/-- JavaScript `text.toLowerCase()` (ASCII range). -/
def strToLower (s : String) : String :=
  String.mk (s.data.map charToLower)

/-- Does `pat` occur as a contiguous run inside `hay`? -/
def listIncludes (hay pat : List Char) : Bool :=
  match hay with
  | [] => pat.isEmpty
  | _ :: t => pat.isPrefixOf hay || listIncludes t pat

/-- JavaScript `normalized.includes(phrase)`. -/
def strIncludes (s pat : String) : Bool :=
  listIncludes s.data pat.data

/-- An ASCII apostrophe, for the phrase list below. -/
def apos : String := String.mk [Char.ofNat 39]

/-- List `GENERIC_MEETING_PHRASES` from the relay (seven hardcoded phrases; the
first and last contain apostrophes). -/
def GENERIC_MEETING_PHRASES : List String :=
  [ "let" ++ apos ++ "s dive into today" ++ apos ++ "s agenda",
    "sales figures",
    "q3 financial",
    "quarterly projections",
    "align on the new targets",
    "board meeting next week",
    "welcome everyone to today" ++ apos ++ "s quarterly review" ]

/-- Function `isSuspiciousTranscript` from the relay: the lowercased text contains one
of the generic meeting phrases. -/
def isSuspiciousTranscript (text : String) : Bool :=
  let normalized := strToLower text
  GENERIC_MEETING_PHRASES.any (fun phrase => strIncludes normalized phrase)

/-- The gate cascade of the `audio-chunk` handler, in source order, returning
the failure acknowledgement message of the first failing gate (or `none` when
every gate passes): payload presence, `checkRateLimit`, decoded-size ceiling,
then token verification plus session/user binding (both token failures are
caught and acked with the thrown message). `socketUserId` is
`socket.data.userId` (set at join; `none` when never joined). -/
def gateFail (hmac : SocketTokenPayload → String) (msg : ChunkMsg)
    (rate : Option RateEntry) (now : Nat) (socketUserId : Option String) : Option String :=
  if payloadMissing msg then
    some "Missing sessionId, chunk, or token"
  else if (checkRateLimit rate now).1 = false then
    some "Rate limit exceeded"
  else if MAX_CHUNK_BYTES < base64ByteLength msg.chunk then
    some "Chunk too large"
  else
    match msg.token with
    | none => some "Missing sessionId, chunk, or token"
    | some t =>
      match verifySocketToken hmac t now with
      | .error e => some e
      | .ok payload =>
        if payload.sessionId ≠ msg.sessionId ∨ some payload.userId ≠ socketUserId then
          some "Invalid token for chunk upload"
        else
          none

/-- The recording row the handler reads (`transcript`, `status`). -/
structure DbRecording where
  transcript : Option String
  status : String
deriving DecidableEq, Repr

/-- Acknowledgement sent through the `audio-chunk` callback. -/
inductive ChunkAck
  | okAck
  | failAck (message : String)
deriving DecidableEq, Repr

/-- Observable outcome of one `audio-chunk` invocation: the ack, the updated
per-socket rate entry, whether the chunk row was persisted, the transcript
written to the chunk row (`none` = left empty), the session transcript after
the call, whether the session status was forced to `recording`, the
`chunk-transcribed` broadcast (index, text), and whether `chunk-error` fired. -/
structure ChunkOutcome where
  ack : ChunkAck
  rateAfter : Option RateEntry
  persistedChunk : Bool
  chunkTranscript : Option String
  sessionTranscript : Option String
  statusSet : Bool
  broadcast : Option (Nat × String)
  chunkError : Bool
deriving DecidableEq, Repr

/-- The session transcript stored before the call. -/
def dbTranscript (record : Option DbRecording) : Option String :=
  match record with
  | none => none
  | some r => r.transcript

/-- The relay `audio-chunk` handler. Gate failures ack `ok: false` and touch
nothing (only `checkRateLimit` has already mutated its map entry). Past the
gates: a DB miss throws into the catch block (failure ack plus `chunk-error`);
otherwise the chunk row is created, `transcribeChunk` runs (its failure is
swallowed as empty text), suspicious text is blanked, nonempty text is written
to the chunk row and newline-appended to the session transcript, the status is
forced to `recording` once, and `chunk-transcribed` is broadcast with the
(possibly empty) text before the success ack. -/
def audioChunkHandler (hmac : SocketTokenPayload → String) (msg : ChunkMsg)
    (rate : Option RateEntry) (now : Nat) (socketUserId : Option String)
    (record : Option DbRecording) (transcribe : Except String String) : ChunkOutcome :=
  let rateAfter := if payloadMissing msg then rate else some (checkRateLimit rate now).2
  match gateFail hmac msg rate now socketUserId with
  | some m =>
    { ack := .failAck m, rateAfter := rateAfter, persistedChunk := false,
      chunkTranscript := none, sessionTranscript := dbTranscript record,
      statusSet := false, broadcast := none, chunkError := false }
  | none =>
    match record with
    | none =>
      { ack := .failAck "Recording not found", rateAfter := rateAfter,
        persistedChunk := false, chunkTranscript := none,
        sessionTranscript := none, statusSet := false, broadcast := none,
        chunkError := true }
    | some rec =>
      let rawText := match transcribe with
        | .ok t => jsTrim t
        | .error _ => ""
      let transcriptText :=
        if rawText ≠ "" ∧ isSuspiciousTranscript rawText then "" else rawText
      let chunkTranscript := if transcriptText ≠ "" then some transcriptText else none
      let updatedTranscript : Option String :=
        if transcriptText ≠ "" then
          some (String.intercalate "\n"
            (([rec.transcript.getD "", transcriptText]).filter (fun s => s ≠ "")))
        else rec.transcript
      let transcriptChanged :=
        match updatedTranscript with
        | some s => decide (rec.transcript ≠ some s)
        | none => false
      { ack := .okAck, rateAfter := rateAfter, persistedChunk := true,
        chunkTranscript := chunkTranscript,
        sessionTranscript := if transcriptChanged then updatedTranscript else rec.transcript,
        statusSet := rec.status ≠ "recording",
        broadcast := some (msg.index, transcriptText), chunkError := false }

/-! ## Finalization: socket `complete-session` vs the REST complete route

Both paths read `{transcript, summary}`, call `summarizeTranscript` on a
nonempty trimmed transcript (failures swallowed), and persist the session as
`completed` with the resulting summary. Only the REST route
(`/api/recordings/[sessionId]/complete`) additionally substitutes a
deterministic fallback when the summary is still empty. -/

/-- Helper for `transcript.split` on the `\r?\n` pattern: pieces separated by a newline with an
optional preceding carriage return. -/
def splitLinesAux : List Char → List Char → List (List Char)
  | acc, [] => [acc.reverse]
  | acc, '\r' :: '\n' :: t => acc.reverse :: splitLinesAux [] t
  | acc, '\n' :: t => acc.reverse :: splitLinesAux [] t
  | acc, c :: t => splitLinesAux (c :: acc) t

/-- Function `transcript.split` on the `\r?\n` pattern, on strings. -/
def splitLines (s : String) : List String :=
  (splitLinesAux [] s.data).map String.mk

/-- The summary the relay `complete-session` handler persists:
`recording.summary ?? ""`, replaced by the summarizer result when the trimmed
transcript is nonempty and summarization does not throw. No empty-summary
fallback exists on this path. -/
def socketCompleteSummary (transcript summary : Option String)
    (summarize : Except String String) : String :=
  let summaryText := summary.getD ""
  if jsTrim (transcript.getD "") ≠ "" then
    match summarize with
    | .ok s => s
    | .error _ => summaryText
  else summaryText

/-- The summary the REST complete route persists: as on the socket path, but an
empty summary is replaced by the first two nonempty transcript lines joined by
a space, or by the fixed placeholder when the transcript is empty. -/
def restCompleteSummary (transcript summary : Option String)
    (summarize : Except String String) : String :=
  let s0 := socketCompleteSummary transcript summary summarize
  if s0 = "" then
    let tr := jsTrim (transcript.getD "")
    if tr ≠ "" then
      let teaser := String.intercalate " "
        (((splitLines tr).filter (fun l => l ≠ "")).take 2)
      if teaser ≠ "" then teaser else "Summary unavailable"
    else "Summary unavailable"
  else s0

/-! ## Client finalizer (`completeSession` in `use-recorder.ts`) -/

/-- Local client session state torn down by `clearSessionState`. -/
structure LocalState where
  sessionId : Option String
  socketToken : Option String
  queueLen : Nat
  socketConnected : Bool
  mach : Mach
deriving DecidableEq, Repr

/-- Function `clearSessionState` with `resetMachine: true`: media reset, session id and
token dropped, socket disconnected, queue and counters cleared, and a `RESET`
event sent to the machine. -/
def clearSessionState (s : LocalState) : LocalState :=
  { sessionId := none, socketToken := none, queueLen := 0,
    socketConnected := false, mach := machineStep s.mach .RESET }

/-- Observable outcome of `completeSession`. -/
structure CompleteOutcome where
  completionSucceeded : Bool
  surfacedError : Option String
  localAfter : LocalState
  finalStatus : String
deriving DecidableEq, Repr

/-- Function `completeSession` from `use-recorder.ts`. With no active session it
returns untouched. Otherwise the socket path is tried first when available
(its failure only logged), then the REST fallback; a REST failure reaches the
outer catch and surfaces its message via `setError`. The `finally` block
always runs `clearSessionState({resetMachine: true})` and leaves the display
status at `"idle"` (a successful completion sets `"completed"` first and is
then overwritten). -/
def completeSession (s : LocalState) (currentStatus : String) (canUseSocket : Bool)
    (socketAttempt restAttempt : Except String Unit) : CompleteOutcome :=
  match s.sessionId with
  | none =>
    { completionSucceeded := false, surfacedError := none,
      localAfter := s, finalStatus := currentStatus }
  | some _ =>
    let result : Bool × Option String :=
      if canUseSocket then
        match socketAttempt with
        | .ok _ => (true, none)
        | .error _ =>
          match restAttempt with
          | .ok _ => (true, none)
          | .error e => (false, some e)
      else
        match restAttempt with
        | .ok _ => (true, none)
        | .error e => (false, some e)
    { completionSucceeded := result.1, surfacedError := result.2,
      localAfter := clearSessionState s, finalStatus := "idle" }

/-! ## Chunk delivery queue (`use-recorder.ts`)

`flushQueue` drains `chunkQueueRef` one chunk at a time: while the queue is
nonempty it breaks when offline, otherwise shifts the head, assigns it
`chunkCounterRef + 1` as its sequence index, and awaits `uploadChunk`. Success
sends `CHUNK_UPLOADED` and continues; failure unshifts the chunk back to the
head, sends `ERROR`, and breaks. `flushPromiseRef` makes the drain single
flight: a call while a drain is in flight returns the same promise.

JavaScript is single threaded, so other handlers (`handleData` enqueues,
`retryPending`, `discardPending`) interleave only at the `await` boundaries.
The model below is a small-step event system whose events are exactly those
interleaving points: `enqueue`/`flushCall` run their synchronous handler
bodies, `ackOk`/`ackFail` resume the drain loop when the in-flight upload
settles. Each event that re-enters the loop head samples `navigator.onLine`
as its `online` argument. `inFlightCount` is the ghost counter of concurrent
in-flight delivery attempts. -/

/-- Structure `QueuedChunk` from `use-recorder.ts` (the blob is carried by identity). -/
structure Chunk where
  blobId : Nat
  durationMs : Nat
deriving DecidableEq, Repr

/-- The mutable refs of the delivery pipeline, plus ghost observers. -/
structure PipeState where
  queue : List Chunk
  counter : Nat
  flushActive : Bool
  uploading : Bool
  inFlight : Option (Chunk × Nat)
  inFlightCount : Nat
  delivered : List (Nat × Chunk)
  queueDepth : Nat
  errorMsg : Option String
  mach : Mach
deriving DecidableEq, Repr

/-- The interleaving-point events of the pipeline. -/
inductive PipeEv
  | enqueue (c : Chunk) (online : Bool)
  | flushCall (online : Bool)
  | ackOk (online : Bool)
  | ackFail
  | discard
deriving DecidableEq, Repr

/-- End of the drain body plus its `finally`: `uploadingRef = false` and
`flushPromiseRef = null`. -/
def endDrain (s : PipeState) : PipeState :=
  { s with uploading := false, flushActive := false }

/-- One pass through the `while` head of `flushQueue`: stop on an empty queue;
break when offline (chunks stay queued); otherwise shift the head chunk,
assign it the next sequence index (`chunkCounterRef + 1`, advanced before the
upload is attempted), and start its upload. -/
def startIteration (online : Bool) (s : PipeState) : PipeState :=
  match s.queue with
  | [] => endDrain s
  | c :: rest =>
    if online then
      let idx := s.counter + 1
      { s with queue := rest, counter := idx, inFlight := some (c, idx),
               inFlightCount := s.inFlightCount + 1 }
    else endDrain s

/-- Function `flushQueue`: join the in-flight drain when one exists; return immediately
when there is nothing to do; otherwise mark the drain active and run the first
loop iteration. -/
def flushQueue (online : Bool) (s : PipeState) : PipeState :=
  if s.flushActive then s
  else if s.queue = [] ∧ s.uploading = false then s
  else startIteration online { s with flushActive := true, uploading := true }

/-- The in-flight `uploadChunk` resolves: record the delivery, send
`CHUNK_UPLOADED`, refresh the queue-depth display, and re-enter the loop head. -/
def pipeAckOk (online : Bool) (s : PipeState) : PipeState :=
  match s.inFlight with
  | none => s
  | some (c, idx) =>
    startIteration online
      { s with inFlight := none, inFlightCount := s.inFlightCount - 1,
               delivered := s.delivered ++ [(idx, c)],
               mach := machineStep s.mach .CHUNK_UPLOADED,
               queueDepth := s.queue.length }

/-- The in-flight `uploadChunk` rejects: unshift the chunk back to the head,
send `ERROR`, surface the retryable error, and break out of the loop. -/
def pipeAckFail (s : PipeState) : PipeState :=
  match s.inFlight with
  | none => s
  | some (c, _) =>
    endDrain
      { s with inFlight := none, inFlightCount := s.inFlightCount - 1,
               queue := c :: s.queue,
               mach := machineStep s.mach (.ERROR "Failed to upload chunk."),
               errorMsg := some "Failed to upload chunk. Will retry on next attempt." }

/-- Function `handleData`: push the blob to the queue tail, bump the depth display,
send `CHUNK_QUEUED`, then `void flushQueue()`. -/
def pipeEnqueue (c : Chunk) (online : Bool) (s : PipeState) : PipeState :=
  flushQueue online
    { s with queue := s.queue ++ [c], queueDepth := s.queue.length + 1,
             mach := machineStep s.mach .CHUNK_QUEUED }

/-- Function `discardPending`: empty the queue, zero the depth display, and send
`RESET` to the machine. -/
def discardPending (s : PipeState) : PipeState :=
  { s with queue := [], queueDepth := 0, mach := machineStep s.mach .RESET }

/-- Dispatch one pipeline event. -/
def pipeStep (s : PipeState) (e : PipeEv) : PipeState :=
  match e with
  | .enqueue c online => pipeEnqueue c online s
  | .flushCall online => flushQueue online s
  | .ackOk online => pipeAckOk online s
  | .ackFail => pipeAckFail s
  | .discard => discardPending s

/-- Run a list of pipeline events. -/
def pipeRun (s : PipeState) (es : List PipeEv) : PipeState :=
  es.foldl pipeStep s

/-- Pipeline state at the start of a recording session (machine in
`recording`, everything else empty). -/
def initPipe : PipeState :=
  { queue := [], counter := 0, flushActive := false, uploading := false,
    inFlight := none, inFlightCount := 0, delivered := [], queueDepth := 0,
    errorMsg := none,
    mach := (.recording, { source := .mic, queuedChunks := 0,
                           uploadedChunks := 0, error := none }) }

/-- The acceptance-gate order as the spec states it, for comparison with
`gateFail`: payload-presence check first, then the per-connection fixed-window
rate limit (40 chunks per 10 s), then the 2 MiB decoded payload size ceiling,
then token signature/expiry and session/user binding. -/
def claimedGateOrder (hmac : SocketTokenPayload → String) (msg : ChunkMsg)
    (rate : Option RateEntry) (now : Nat) (socketUserId : Option String) : Option String :=
  if payloadMissing msg then
    some "Missing sessionId, chunk, or token"
  else if (checkRateLimit rate now).1 = false then
    some "Rate limit exceeded"
  else if MAX_CHUNK_BYTES < base64ByteLength msg.chunk then
    some "Chunk too large"
  else
    match msg.token with
    | none => some "Missing sessionId, chunk, or token"
    | some t =>
      match verifySocketToken hmac t now with
      | .error e => some e
      | .ok payload =>
        if payload.sessionId ≠ msg.sessionId ∨ some payload.userId ≠ socketUserId then
          some "Invalid token for chunk upload"
        else
          none

/-- A concrete MAC function for witnesses (`sign`/`verify` are quantified over
the keyed MAC, so any function instantiates them). -/
def constHmac : SocketTokenPayload → String := fun _ => "mac"

/-! ## Theorems -/

/-- C3 (counterexample): the claim says the `ERROR(message)` event moves every
state — including `idle` — to `error`, but `recorderMachine` defines no ERROR
transition in `idle`, so the event is discarded and the machine stays in
`idle`. -/
theorem machine_error_ignored_in_idle :
    (machineStep (.idle, initialContext) (.ERROR "boom")).1 = MachState.idle ∧
    MachState.idle ≠ MachState.error := by
  exact ⟨rfl, by decide⟩

/-- C3 (amended): `ERROR(message)` moves `recording` and `paused` to `error`,
storing the message; in `idle` and `error` the ERROR event is ignored; from
`error`, `RESET` returns to `idle`, clearing the stored error and resetting
the queued/uploaded counters. -/
theorem machine_error_and_reset_transitions (ctx : RecorderContext) (m : String) :
    machineStep (.recording, ctx) (.ERROR m) = (.error, { ctx with error := some m }) ∧
    machineStep (.paused, ctx) (.ERROR m) = (.error, { ctx with error := some m }) ∧
    machineStep (.idle, ctx) (.ERROR m) = (.idle, ctx) ∧
    machineStep (.error, ctx) (.ERROR m) = (.error, ctx) ∧
    machineStep (.error, ctx) .RESET = (.idle, initialContext) :=
  ⟨rfl, rfl, rfl, rfl, rfl⟩

/-- C10: for every MAC function, session/user pair, signing time and
verification time less than one hour after signing, verifying a freshly signed
socket token succeeds and returns the signed payload (same `sessionId` and
`userId`, `exp` one hour after signing). -/
theorem verify_sign_roundtrip (hmac : SocketTokenPayload → String)
    (sid uid : String) (t0 now : Nat) (h : now < t0 + SOCKET_TOKEN_TTL_MS) :
    verifySocketToken hmac (signSocketToken hmac sid uid t0) now =
      .ok { sessionId := sid, userId := uid, exp := t0 + SOCKET_TOKEN_TTL_MS } := by
  simp only [verifySocketToken, signSocketToken, ne_eq]
  rw [if_neg (by simp)]
  rw [if_neg (by omega)]

/-- C10 witness: the round trip evaluated at a concrete token. -/
theorem verify_sign_roundtrip_witness :
    verifySocketToken constHmac (signSocketToken constHmac "sess" "user" 0) 1000 =
      .ok { sessionId := "sess", userId := "user", exp := 0 + SOCKET_TOKEN_TTL_MS } :=
  verify_sign_roundtrip constHmac "sess" "user" 0 1000 (by decide)

/-- C5: a token whose `exp` lies in the past is rejected by `join-session`
with the structured `Token expired` error, and a (fresh) token whose embedded
`sessionId` differs from the session being joined is rejected with
`Token mismatch`; in both cases the socket is not joined to the room. -/
theorem join_rejects_expired_and_mismatched_tokens
    (hmac : SocketTokenPayload → String) (sid uid sid2 : String)
    (t0 now1 now2 : Nat) (db : Bool)
    (hsid : sid ≠ "")
    (hexpired : t0 + SOCKET_TOKEN_TTL_MS < now1)
    (hfresh : ¬ t0 + SOCKET_TOKEN_TTL_MS < now2)
    (hne : sid2 ≠ sid) :
    joinSession hmac sid (some (signSocketToken hmac sid uid t0)) now1 db =
      { joined := false, errorMsg := some "Token expired" } ∧
    joinSession hmac sid (some (signSocketToken hmac sid2 uid t0)) now2 db =
      { joined := false, errorMsg := some "Token mismatch" } := by
  constructor
  · simp [joinSession, hsid, verifySocketToken, signSocketToken, hexpired]
  · simp [joinSession, hsid, verifySocketToken, signSocketToken, hfresh, hne]

/-- C5 witness: an expired token and a mismatched token, each rejected without
joining. -/
theorem join_rejects_expired_and_mismatched_tokens_witness :
    joinSession constHmac "s" (some (signSocketToken constHmac "s" "u" 0))
        (SOCKET_TOKEN_TTL_MS + 1) true =
      { joined := false, errorMsg := some "Token expired" } ∧
    joinSession constHmac "s" (some (signSocketToken constHmac "other" "u" 0)) 5 true =
      { joined := false, errorMsg := some "Token mismatch" } :=
  join_rejects_expired_and_mismatched_tokens constHmac "s" "u" "other" 0
    (SOCKET_TOKEN_TTL_MS + 1) 5 true (by decide) (by decide) (by decide) (by decide)

/-- C7 (code evaluated at the failing input): on a session whose transcript is
`hello\nworld` with no stored summary, when the summarizer returns the empty
string the socket `complete-session` path persists an empty summary — it has
no fallback — while the REST complete route substitutes the deterministic
fallback built from the first two transcript lines. -/
theorem socket_complete_has_no_summary_fallback :
    socketCompleteSummary (some ("hello" ++ "\n" ++ "world")) none (.ok "") = "" ∧
    restCompleteSummary (some ("hello" ++ "\n" ++ "world")) none (.ok "") = "hello world" := by
  constructor
  · rfl
  · decide

/-- C8: when completion fails on the socket path and then on the REST
fallback, `completeSession` surfaces the REST error but still tears local
state down — session id, token, queue and socket cleared, `RESET` sent to the
machine (resetting it when it sits in `idle` after STOP) — and the display
status ends at `idle`. -/
theorem complete_failure_still_tears_down (sid : String) (tok : Option String)
    (q : Nat) (sock : Bool) (ctx : RecorderContext) (st e1 e2 : String) :
    completeSession
        { sessionId := some sid, socketToken := tok, queueLen := q,
          socketConnected := sock, mach := (.idle, ctx) }
        st true (.error e1) (.error e2) =
      { completionSucceeded := false, surfacedError := some e2,
        localAfter := { sessionId := none, socketToken := none, queueLen := 0,
                        socketConnected := false, mach := (.idle, initialContext) },
        finalStatus := "idle" } :=
  rfl

/-- C4: the gate cascade of the `audio-chunk` handler equals the claimed order
(payload presence, then the 40-per-10 s fixed-window rate limit, then the
2 MiB decoded size ceiling, then token signature/expiry and session/user
binding), and whichever gate fails first yields a structured failure ack with
the message of that gate while persisting nothing — no chunk row, no chunk
transcript, an unchanged session transcript, no status write, no broadcast. -/
theorem audio_chunk_gate_order (hmac : SocketTokenPayload → String) (msg : ChunkMsg)
    (rate : Option RateEntry) (now : Nat) (uid : Option String) :
    gateFail hmac msg rate now uid = claimedGateOrder hmac msg rate now uid ∧
    (∀ (m : String) (record : Option DbRecording) (transcribe : Except String String),
      gateFail hmac msg rate now uid = some m →
        (audioChunkHandler hmac msg rate now uid record transcribe).ack = .failAck m ∧
        (audioChunkHandler hmac msg rate now uid record transcribe).persistedChunk = false ∧
        (audioChunkHandler hmac msg rate now uid record transcribe).chunkTranscript = none ∧
        (audioChunkHandler hmac msg rate now uid record transcribe).sessionTranscript =
          dbTranscript record ∧
        (audioChunkHandler hmac msg rate now uid record transcribe).statusSet = false ∧
        (audioChunkHandler hmac msg rate now uid record transcribe).broadcast = none) := by
  constructor
  · rfl
  · intro m record transcribe h
    simp [audioChunkHandler, h]

/-- C4 witness: a connection that already spent its 40-chunk window gets the
rate-limit failure ack and nothing is persisted, even though every later gate
would also have something to say. -/
theorem audio_chunk_gate_order_witness :
    (audioChunkHandler constHmac
        { sessionId := "s", chunk := "QQ==", index := 7, durationMs := 30000,
          mimeType := none, token := some (signSocketToken constHmac "s" "u" 0) }
        (some { count := 40, windowStart := 0 }) 5 (some "u")
        (some { transcript := some "prev", status := "recording" })
        (.ok "text")).ack = .failAck "Rate limit exceeded" ∧
    (audioChunkHandler constHmac
        { sessionId := "s", chunk := "QQ==", index := 7, durationMs := 30000,
          mimeType := none, token := some (signSocketToken constHmac "s" "u" 0) }
        (some { count := 40, windowStart := 0 }) 5 (some "u")
        (some { transcript := some "prev", status := "recording" })
        (.ok "text")).persistedChunk = false := by
  have h := (audio_chunk_gate_order constHmac
    { sessionId := "s", chunk := "QQ==", index := 7, durationMs := 30000,
      mimeType := none, token := some (signSocketToken constHmac "s" "u" 0) }
    (some { count := 40, windowStart := 0 }) 5 (some "u")).2
    "Rate limit exceeded"
    (some { transcript := some "prev", status := "recording" })
    (.ok "text") (by decide)
  exact ⟨h.1, h.2.1⟩

/-- C9: past the gates, when transcription returns text whose trimmed form
contains one of the seven generic meeting phrases (lowercased), the relay
silently discards it: the transcript of the chunk row stays empty, the session
transcript is left exactly as stored, and the `chunk-transcribed` broadcast
carries empty text — while the chunk itself is still persisted and acked ok. -/
theorem suspicious_transcript_discarded (hmac : SocketTokenPayload → String)
    (msg : ChunkMsg) (rate : Option RateEntry) (now : Nat) (uid : Option String)
    (rec : DbRecording) (t : String)
    (hgate : gateFail hmac msg rate now uid = none)
    (hsusp : isSuspiciousTranscript (jsTrim t) = true) :
    (audioChunkHandler hmac msg rate now uid (some rec) (.ok t)).chunkTranscript = none ∧
    (audioChunkHandler hmac msg rate now uid (some rec) (.ok t)).sessionTranscript =
      rec.transcript ∧
    (audioChunkHandler hmac msg rate now uid (some rec) (.ok t)).broadcast =
      some (msg.index, "") ∧
    (audioChunkHandler hmac msg rate now uid (some rec) (.ok t)).persistedChunk = true ∧
    (audioChunkHandler hmac msg rate now uid (some rec) (.ok t)).ack = .okAck := by
  have htext : (if jsTrim t ≠ "" ∧ isSuspiciousTranscript (jsTrim t) then "" else jsTrim t)
      = "" := by
    by_cases h : jsTrim t = ""
    · simp [h]
    · simp [h, hsusp]
  simp only [audioChunkHandler, hgate, htext]
  cases rec.transcript <;> simp

/-- C9 witness: a transcript mentioning "align on the new targets" is blanked
before persistence and broadcast. -/
theorem suspicious_transcript_discarded_witness :
    (audioChunkHandler constHmac
        { sessionId := "s", chunk := "QQ==", index := 3, durationMs := 30000,
          mimeType := none, token := some (signSocketToken constHmac "s" "u" 0) }
        none 5 (some "u") (some { transcript := some "prev", status := "recording" })
        (.ok " We must Align on the new targets now ")).chunkTranscript = none ∧
    (audioChunkHandler constHmac
        { sessionId := "s", chunk := "QQ==", index := 3, durationMs := 30000,
          mimeType := none, token := some (signSocketToken constHmac "s" "u" 0) }
        none 5 (some "u") (some { transcript := some "prev", status := "recording" })
        (.ok " We must Align on the new targets now ")).sessionTranscript = some "prev" ∧
    (audioChunkHandler constHmac
        { sessionId := "s", chunk := "QQ==", index := 3, durationMs := 30000,
          mimeType := none, token := some (signSocketToken constHmac "s" "u" 0) }
        none 5 (some "u") (some { transcript := some "prev", status := "recording" })
        (.ok " We must Align on the new targets now ")).broadcast = some (3, "") := by
  have h := suspicious_transcript_discarded constHmac
    { sessionId := "s", chunk := "QQ==", index := 3, durationMs := 30000,
      mimeType := none, token := some (signSocketToken constHmac "s" "u" 0) }
    none 5 (some "u") { transcript := some "prev", status := "recording" }
    " We must Align on the new targets now " (by decide) (by decide)
  exact ⟨h.1, h.2.1, h.2.2.1⟩

/-! ### Single-flight invariant of the delivery queue -/

/-- Pipeline invariant: the ghost in-flight counter mirrors the in-flight
option, and the drain is active exactly while an upload is in flight (with
`uploadingRef` tracking the drain). -/
def PipeInv (s : PipeState) : Prop :=
  s.inFlightCount = (if s.inFlight.isSome then 1 else 0) ∧
  s.flushActive = s.inFlight.isSome ∧
  s.uploading = s.flushActive

theorem pipeInv_init : PipeInv initPipe := by
  refine ⟨rfl, rfl, rfl⟩

theorem pipeInv_startIteration (online : Bool) (s : PipeState)
    (h0 : s.inFlightCount = 0) (h1 : s.inFlight = none)
    (h2 : s.flushActive = true) (h3 : s.uploading = true) :
    PipeInv (startIteration online s) := by
  unfold startIteration endDrain
  cases hq : s.queue with
  | nil => exact ⟨by simp [h0, h1], by simp [h1], rfl⟩
  | cons c rest =>
    by_cases ho : online
    · simp only [ho, if_true]
      exact ⟨by simp [h0], by simp [h2], by simp [h2, h3]⟩
    · simp only [ho, if_false]
      exact ⟨by simp [h0, h1], by simp [h1], rfl⟩

theorem pipeInv_flushQueue (online : Bool) (s : PipeState) (h : PipeInv s) :
    PipeInv (flushQueue online s) := by
  obtain ⟨h0, h1, h2⟩ := h
  unfold flushQueue
  by_cases hf : s.flushActive
  · simp only [hf, if_true]
    exact ⟨h0, h1, h2⟩
  · have hnone : s.inFlight = none := by
      cases hfl : s.inFlight with
      | none => rfl
      | some v => rw [hfl] at h1; simp [hf] at h1
    simp only [hf, if_false]
    by_cases hq : s.queue = [] ∧ s.uploading = false
    · simp only [hq, if_true]
      exact ⟨h0, h1, h2⟩
    · simp only [hq, if_false]
      exact pipeInv_startIteration online _ (by simp [h0, hnone]) (by simp [hnone])
        rfl rfl

theorem pipeInv_step (s : PipeState) (e : PipeEv) (h : PipeInv s) :
    PipeInv (pipeStep s e) := by
  obtain ⟨h0, h1, h2⟩ := h
  cases e with
  | enqueue c online =>
    exact pipeInv_flushQueue online _ ⟨h0, h1, h2⟩
  | flushCall online =>
    exact pipeInv_flushQueue online _ ⟨h0, h1, h2⟩
  | ackOk online =>
    show PipeInv (pipeAckOk online s)
    unfold pipeAckOk
    cases hfl : s.inFlight with
    | none => exact ⟨h0, h1, h2⟩
    | some v =>
      rw [hfl] at h0 h1
      simp only [Option.isSome_some, if_true] at h0
      exact pipeInv_startIteration online _ (by simp [h0]) rfl (by simp [h1])
        (by simp [h2, h1])
  | ackFail =>
    show PipeInv (pipeAckFail s)
    unfold pipeAckFail endDrain
    cases hfl : s.inFlight with
    | none => exact ⟨h0, h1, h2⟩
    | some v =>
      rw [hfl] at h0
      simp only [Option.isSome_some, if_true] at h0
      exact ⟨by simp [h0], by simp, rfl⟩
  | discard =>
    exact ⟨h0, h1, h2⟩

theorem pipeInv_run (es : List PipeEv) :
    ∀ s : PipeState, PipeInv s → PipeInv (pipeRun s es) := by
  induction es with
  | nil => intro s h; exact h
  | cons e rest ih =>
    intro s h
    exact ih (pipeStep s e) (pipeInv_step s e h)

/-- C2: the drain is single flight. In every execution of the pipeline from
the session start, the ghost counter of concurrent in-flight chunk delivery
attempts never exceeds 1; and calling `flushQueue` while a drain is in flight
(the flush promise is set) returns the state unchanged — it joins the
existing drain instead of starting a second one. -/
theorem drain_single_flight (es : List PipeEv) :
    (pipeRun initPipe es).inFlightCount ≤ 1 ∧
    (∀ (s : PipeState) (online : Bool), s.flushActive = true →
      pipeStep s (.flushCall online) = s) := by
  constructor
  · have h := (pipeInv_run es initPipe pipeInv_init).1
    rw [h]
    cases (pipeRun initPipe es).inFlight <;> simp
  · intro s online h
    simp [pipeStep, flushQueue, h]

/-- C2 witness: after one enqueue the drain is in flight with exactly one
attempt, and a reentrant `flushQueue` call on that state is a no-op. -/
theorem drain_single_flight_witness :
    (pipeRun initPipe [.enqueue ⟨1, 30000⟩ true]).inFlightCount ≤ 1 ∧
    pipeStep (pipeRun initPipe [.enqueue ⟨1, 30000⟩ true]) (.flushCall true) =
      pipeRun initPipe [.enqueue ⟨1, 30000⟩ true] :=
  ⟨(drain_single_flight [.enqueue ⟨1, 30000⟩ true]).1,
   (drain_single_flight [.enqueue ⟨1, 30000⟩ true]).2
     (pipeRun initPipe [.enqueue ⟨1, 30000⟩ true]) true (by decide)⟩

/-! ### The retry path burns a sequence index -/

/-- The two-chunk trace that exercises the retry path: chunk 1 delivered,
chunk 2 fails once (re-queued at the head) and is delivered on the manual
retry. -/
def retryTrace : List PipeEv :=
  [ .enqueue ⟨1, 30000⟩ true, .ackOk true,
    .enqueue ⟨2, 30000⟩ true, .ackFail,
    .flushCall true, .ackOk true ]

/-- C1 (code evaluated at the failing input): on `retryTrace` the failed chunk
is re-queued at the head and is indeed the next chunk delivered, but
`chunkCounterRef` was already advanced for the failed attempt and is never
rolled back, so the retried chunk is delivered with sequence index 3 instead
of its original intended index 2 — the delivered indices are `[1, 3]`, a run
with a gap, refuting the gapless-run claim. -/
theorem retry_burns_sequence_index :
    (pipeRun initPipe retryTrace).delivered =
      [(1, ⟨1, 30000⟩), (3, ⟨2, 30000⟩)] ∧
    (pipeRun initPipe retryTrace).delivered.map Prod.fst = [1, 3] ∧
    ¬ (2 ∈ (pipeRun initPipe retryTrace).delivered.map Prod.fst) := by
  refine ⟨by decide, by decide, by decide⟩

/-! ### Manual discard does not reach the machine counter while recording -/

/-- A recording-state pipeline with a three-chunk backlog and the machine
queued counter at 3. -/
def backlogState : PipeState :=
  { initPipe with
      queue := [⟨1, 30000⟩, ⟨2, 30000⟩, ⟨3, 30000⟩],
      queueDepth := 3,
      mach := (.recording, { source := .mic, queuedChunks := 3,
                             uploadedChunks := 0, error := none }) }

/-- C6 (code evaluated at the failing input): `discardPending` empties the
pending queue and zeroes the depth display, but the `RESET` it sends is not
handled by the `recording` state of the machine, so the queued-chunks
counter stays at 3 instead of being reset to zero. -/
theorem discard_in_recording_keeps_counter :
    (discardPending backlogState).queue = [] ∧
    (discardPending backlogState).queueDepth = 0 ∧
    (discardPending backlogState).mach =
      (.recording, { source := .mic, queuedChunks := 3,
                     uploadedChunks := 0, error := none }) ∧
    ((discardPending backlogState).mach.2.queuedChunks = 3) := by
  refine ⟨by decide, by decide, by decide, by decide⟩

end ScribeAI
